import Mathlib

/-!
Shallow embedding of `src/main.py` (webhook-backed conversational handler for
the iapetusai-gcp-iac-modules repository) and verification of its
natural-language specification.

Modelling conventions:

* Python/JSON values are modelled by the inductive `PyJson`.  A request body
  obtained from `request.get_json()` is a `PyJson`; `PyJson.null` stands for
  `None` (a missing body).  A body whose JSON text fails to parse makes
  `get_json` raise inside the handler's `try` block; that run is
  response-equivalent to the `PyJson.null` body (both reach the top-level
  `except` before any branch executes), so `PyJson.null` covers it.
* Python exceptions are modelled with `Except Unit`: `Except.error ()` is a
  raised exception, propagating through `do`-blocks exactly as an exception
  propagates up to the nearest `try/except`.
* `os.environ.get('CRM_API_KEY')` is the parameter `env : Option String`
  (`none` when the variable is unset).
* The Firestore `knowledge-base` stream is the parameter `kb : List Doc`,
  one association list of string fields per document, in stream order.
  The claims under verification only exercise string-valued fields, so
  document fields are modelled as strings.
* The Firestore write in `log_conversation` is modelled by the flag
  `logWriteOk : Bool` (`false` simulates `db.collection(...).add` raising).
  `log_conversation` itself wraps everything in `try/except Exception`,
  so its embedding is a total function returning the `AuditRecord` that was
  durably written, or `none` when building or writing it failed.
* `thefuzz`'s `fuzz.token_sort_ratio` is an external library, not code of
  this repository; the matcher is therefore parametric in a scorer
  `Scorer := String → String → Nat` (scores on the 0–100 scale).
  `process.extractOne` is embedded concretely (maximum by score, first
  candidate wins ties, as Python's `max` does); it requires a string query,
  so a non-string `text` value with a non-empty candidate set raises.
-/

/-- A Python/JSON value as it appears in a parsed webhook request body. -/
inductive PyJson where
  | null : PyJson
  | bool : Bool → PyJson
  | num : Int → PyJson
  | str : String → PyJson
  | arr : List PyJson → PyJson
  | obj : List (String × PyJson) → PyJson

/-- Python `d.get(key, default)`: returns the value when `d` is a dict and
the key is present, the default when `d` is a dict without the key, and
raises (`AttributeError`) when `d` is not a dict. -/
def dictGet (d : PyJson) (key : String) (default : PyJson) : Except Unit PyJson :=
  match d with
  | PyJson.obj kvs => Except.ok ((kvs.lookup key).getD default)
  | _ => Except.error ()

/-- Python `str(v)` as used by f-string interpolation.  Faithful on the
string, boolean, `None` and integer cases the handler's replies can
receive; container values are abbreviated (the claims under verification
only interpolate strings). -/
def pyStr : PyJson → String
  | PyJson.null => "None"
  | PyJson.bool true => "True"
  | PyJson.bool false => "False"
  | PyJson.num n => toString n
  | PyJson.str s => s
  | PyJson.arr _ => "[...]"
  | PyJson.obj _ => "\x7b...\x7d"

/-- Python `v == s` for a string literal `s`: string comparison when `v` is a
string, `False` for every other runtime type. -/
def pyEqStr (v : PyJson) (s : String) : Bool :=
  match v with
  | PyJson.str t => t = s
  | _ => false

/-- The audit record assembled by `log_conversation` (main.py lines 20–26),
minus the server-assigned timestamp. -/
structure AuditRecord where
  session_id : PyJson
  intent_display_name : PyJson
  user_text : PyJson
  parameters : PyJson

/-- Embedding of `log_conversation` (main.py lines 12–31).  The whole body is
inside `try/except Exception`, so the embedding is total: it returns the
record durably written to `chat-logs`, or `none` when building the record or
writing it (`logWriteOk = false`) raised — the exception is swallowed. -/
def log_conversation (req_json : PyJson) (logWriteOk : Bool) : Option AuditRecord :=
  match (do
    let sessionInfo ← dictGet req_json "sessionInfo" (PyJson.obj [])
    let sid ← dictGet sessionInfo "session" (PyJson.str "UNKNOWN")
    let intentInfo ← dictGet req_json "intentInfo" (PyJson.obj [])
    let idn ← dictGet intentInfo "displayName" (PyJson.str "N/A")
    let ut ← dictGet req_json "text" (PyJson.str "N/A")
    let ps ← dictGet sessionInfo "parameters" (PyJson.obj [])
    Except.ok (AuditRecord.mk sid idn ut ps) : Except Unit AuditRecord) with
  | Except.ok rec => if logWriteOk then some rec else none
  | Except.error _ => none

/-- A knowledge-base document (`doc.to_dict()`), an association list of
string-valued fields. -/
abbrev Doc := List (String × String)

/-- Python dict assignment `d[k] = v`: updates the value in place when the
key is present (keeping its insertion position), appends otherwise. -/
def dictInsert (d : List (String × String)) (k v : String) : List (String × String) :=
  if d.any (fun p => p.1 = k) then
    d.map (fun p => if p.1 = k then (k, v) else p)
  else
    d ++ [(k, v)]

/-- One iteration of the `for doc in all_docs` loop (main.py lines 47–50):
a document carrying both a `question` and an `answer` field contributes
`choices[question] = answer`; any other document is skipped. -/
def kbStep (choices : List (String × String)) (doc : Doc) : List (String × String) :=
  match doc.lookup "question", doc.lookup "answer" with
  | some q, some a => dictInsert choices q a
  | _, _ => choices

/-- The `choices` dict built by `handle_knowledge_fallback` (main.py lines
46–50) from the streamed documents. -/
def kbChoices (kb : List Doc) : List (String × String) :=
  kb.foldl kbStep []

/-- The answer a single document contributes for question `q`: its `answer`
field when the document is valid and its `question` field equals `q`. -/
def docAnswer (d : Doc) (q : String) : Option String :=
  match d.lookup "question", d.lookup "answer" with
  | some q2, some a => if q2 = q then some a else none
  | _, _ => none

/-- The answer of the valid document encountered last in stream order whose
`question` field equals `q` (later documents shadow earlier ones). -/
def lastAnswer : List Doc → String → Option String
  | [], _ => none
  | d :: kb, q =>
    match lastAnswer kb q with
    | some a => some a
    | none => docAnswer d q

/-- A similarity scorer on the 0–100 scale (the repository passes
`fuzz.token_sort_ratio` from the external `thefuzz` library). -/
abbrev Scorer := String → String → Nat

/-- Embedding of `thefuzz.process.extractOne`: the highest-scoring candidate
together with its score; the first candidate wins ties (Python `max`).
Returns `none` on an empty candidate list. -/
def extractOne (score : String → Nat) : List String → Option (String × Nat)
  | [] => none
  | c :: cs =>
    some (cs.foldl (fun best cand =>
      if score cand > best.2 then (cand, score cand) else best) (c, score c))

/-- Embedding of `handle_knowledge_fallback` (main.py lines 34–69).  Builds
the `choices` dict from the store and returns `none` when it is empty
without invoking the matcher; otherwise runs `extractOne` and accepts the
best match only when its score is strictly greater than 85.  The external
matcher requires a string query, so a non-string `user_query` raises when
the candidate set is non-empty. -/
def handle_knowledge_fallback (user_query : PyJson) (kb : List Doc) (scorer : Scorer) :
    Except Unit (Option String) :=
  let choices := kbChoices kb
  if choices.isEmpty then
    Except.ok none
  else
    match user_query with
    | PyJson.str q =>
      match extractOne (scorer q) (choices.map Prod.fst) with
      | none => Except.ok none
      | some (match_text, score) =>
        if score > 85 then Except.ok (choices.lookup match_text)
        else Except.ok none
    | _ => Except.error ()

/-- Embedding of `send_handoff_notification` (main.py lines 72–92):
`os.environ.get('CRM_API_KEY')` is `env`; `if not email_api_key` fails fast
on an unset or empty key; otherwise the simulated dispatch succeeds. -/
def send_handoff_notification (env : Option String) (_full_name _email _context : PyJson) : Bool :=
  match env with
  | none => false
  | some key => if key = "" then false else true

/-- The intent name the router computes (main.py line 109):
`req.get("intentInfo", \x7b\x7d).get("displayName", "")`. -/
def routerIntentName (req : PyJson) : Except Unit PyJson := do
  let intentInfo ← dictGet req "intentInfo" (PyJson.obj [])
  dictGet intentInfo "displayName" (PyJson.str "")

/-- The user query the router computes (main.py line 110):
`req.get("text", "")`. -/
def routerUserQuery (req : PyJson) : Except Unit PyJson :=
  dictGet req "text" (PyJson.str "")

/-- The `Lead Capture & Qualification` branch (main.py lines 115–128): reads
`full_name` with default `"Valued Prospect"`, invokes the dispatcher with a
fixed context string, discards its result, and acknowledges
unconditionally. -/
def leadCaptureBranch (req : PyJson) (env : Option String) : Except Unit String := do
  let sessionInfo ← dictGet req "sessionInfo" (PyJson.obj [])
  let session_params ← dictGet sessionInfo "parameters" (PyJson.obj [])
  let name ← dictGet session_params "full_name" (PyJson.str "Valued Prospect")
  let email ← dictGet session_params "email_address" (PyJson.str "N/A")
  let _ := send_handoff_notification env name email
    (PyJson.str "Lead captured via intent: Lead Capture & Qualification")
  Except.ok ("Thank you, " ++ pyStr name ++ ". Your request has been securely logged. A member of our advisory team will be in contact with you shortly.")

/-- The `handoff.request` branch (main.py lines 130–141): reads `full_name`
(default `"Prospect"`), `email_address` (default `"Not Collected"`) and the
raw text (default `"User explicitly asked for an agent."`), then branches on
the dispatcher's result. -/
def handoffBranch (req : PyJson) (env : Option String) : Except Unit String := do
  let sessionInfo ← dictGet req "sessionInfo" (PyJson.obj [])
  let session_params ← dictGet sessionInfo "parameters" (PyJson.obj [])
  let name ← dictGet session_params "full_name" (PyJson.str "Prospect")
  let email ← dictGet session_params "email_address" (PyJson.str "Not Collected")
  let user_context ← dictGet req "text" (PyJson.str "User explicitly asked for an agent.")
  if send_handoff_notification env name email user_context then
    Except.ok ("Thank you, " ++ pyStr name ++ ". I have securely notified our advisory team. They will review your request and reach out to you at " ++ pyStr email ++ " shortly.")
  else
    Except.ok "I'm sorry, I couldn't connect you right now. Please try emailing us directly."

/-- The fixed final-fallback prompt (main.py line 153). -/
def dontKnowPrompt : String :=
  "I'm sorry, I don't have an answer for that. Would you like to speak to a human advisor?"

/-- The fixed top-level apology (main.py line 180). -/
def apologyText : String :=
  "I'm sorry, I seem to be having a technical issue. Please try again in a moment."

/-- The body of the handler's `try` block (main.py lines 101–170), producing
the `response_text` that is wrapped in the envelope: audit-log the request
(never raises), compute the intent name and user query, and route.  An
`Except.error` is an exception reaching the top-level `except`. -/
def routeText (req : PyJson) (env : Option String) (kb : List Doc) (scorer : Scorer)
    (logWriteOk : Bool) : Except Unit String := do
  let _ := log_conversation req logWriteOk
  let intent_name ← routerIntentName req
  let user_query ← routerUserQuery req
  if pyEqStr intent_name "Lead Capture & Qualification" then
    leadCaptureBranch req env
  else if pyEqStr intent_name "handoff.request" then
    handoffBranch req env
  else if pyEqStr intent_name "Default Welcome Intent" then
    Except.ok "Welcome to Iapetus AI. How can I assist you today?"
  else do
    let answer ← handle_knowledge_fallback user_query kb scorer
    Except.ok (answer.getD dontKnowPrompt)

/-- The fixed fulfillment envelope (main.py lines 156–167 and 175–186):
exactly one message, one text string, `allow_playback_interruption` false. -/
def envelope (t : String) : PyJson :=
  PyJson.obj [("fulfillment_response", PyJson.obj [("messages", PyJson.arr [
    PyJson.obj [("text", PyJson.obj [
      ("text", PyJson.arr [PyJson.str t]),
      ("allow_playback_interruption", PyJson.bool false)])]])])]

/-- An HTTP response as the handler returns it:
`json.dumps(res), 200, Content-Type: application/json`. -/
structure Response where
  body : PyJson
  status : Nat
  contentType : String

/-- Embedding of `cf_lead_capture_handler` (main.py lines 95–188): the `try`
block computes the response text; any exception is caught by the single
top-level `except`, which substitutes the fixed apology.  Both paths return
the same envelope shape with status 200. -/
def cf_lead_capture_handler (req : PyJson) (env : Option String) (kb : List Doc)
    (scorer : Scorer) (logWriteOk : Bool) : Response :=
  { body := envelope (match routeText req env kb scorer logWriteOk with
      | Except.ok t => t
      | Except.error _ => apologyText),
    status := 200,
    contentType := "application/json" }

/-! ### Helper lemmas about the embedded operations -/

theorem dictGet_obj (kvs : List (String × PyJson)) (k : String) (d : PyJson) :
    dictGet (PyJson.obj kvs) k d = Except.ok ((kvs.lookup k).getD d) := rfl

theorem except_bind_ok {α β : Type} (a : α) (f : α → Except Unit β) :
    (Except.ok a : Except Unit α) >>= f = f a := rfl

theorem except_bind_error {α β : Type} (f : α → Except Unit β) :
    (Except.error () : Except Unit α) >>= f = Except.error () := rfl

theorem routerUserQuery_obj (kvs : List (String × PyJson)) :
    routerUserQuery (PyJson.obj kvs) = Except.ok ((kvs.lookup "text").getD (PyJson.str "")) := rfl

theorem lookup_cons (k1 v1 : String) (d : List (String × String)) (q : String) :
    List.lookup q ((k1, v1) :: d) = if q = k1 then some v1 else List.lookup q d := by
  by_cases h : q = k1
  · subst h
    simp [List.lookup]
  · have hb : (q == k1) = false := beq_eq_false_iff_ne.mpr h
    simp only [List.lookup, hb, if_neg h]

theorem lookup_append (l1 l2 : List (String × String)) (q : String) :
    (l1 ++ l2).lookup q = match l1.lookup q with
      | some v => some v
      | none => l2.lookup q := by
  induction l1 with
  | nil => rfl
  | cons p l1 ih =>
    obtain ⟨k, v⟩ := p
    by_cases hqk : q = k <;> simp [lookup_cons, hqk, ih]

theorem lookup_eq_none_of_no_key (d : List (String × String)) (k : String)
    (h : d.any (fun p => p.1 = k) = false) : d.lookup k = none := by
  induction d with
  | nil => rfl
  | cons p d ih =>
    obtain ⟨k1, v1⟩ := p
    simp only [List.any_cons, Bool.or_eq_false_iff] at h
    have hk1 : ¬ k = k1 := by
      intro he
      rw [he] at h
      simp at h
    rw [lookup_cons, if_neg hk1]
    exact ih h.2

theorem lookup_map_replace_ne (d : List (String × String)) (k v q : String) (hq : q ≠ k) :
    (d.map (fun p => if p.1 = k then (k, v) else p)).lookup q = d.lookup q := by
  induction d with
  | nil => rfl
  | cons p d ih =>
    obtain ⟨k1, v1⟩ := p
    rw [List.map_cons]
    by_cases h1 : k1 = k
    · have : (if (k1, v1).1 = k then (k, v) else (k1, v1)) = (k, v) := if_pos h1
      rw [this, lookup_cons, if_neg hq, ih, lookup_cons]
      rw [h1, if_neg hq]
    · have : (if (k1, v1).1 = k then (k, v) else (k1, v1)) = (k1, v1) := if_neg h1
      rw [this, lookup_cons, lookup_cons, ih]

theorem lookup_map_replace_eq (d : List (String × String)) (k v : String)
    (h : d.any (fun p => p.1 = k) = true) :
    (d.map (fun p => if p.1 = k then (k, v) else p)).lookup k = some v := by
  induction d with
  | nil => simp at h
  | cons p d ih =>
    obtain ⟨k1, v1⟩ := p
    rw [List.map_cons]
    by_cases h1 : k1 = k
    · have : (if (k1, v1).1 = k then (k, v) else (k1, v1)) = (k, v) := if_pos h1
      rw [this, lookup_cons, if_pos rfl]
    · have hrepl : (if (k1, v1).1 = k then (k, v) else (k1, v1)) = (k1, v1) := if_neg h1
      simp only [List.any_cons] at h
      have h2 : d.any (fun p => p.1 = k) = true := by
        rcases Bool.or_eq_true_iff.mp h with h' | h'
        · exact absurd (by simpa using h') h1
        · exact h'
      have hk1 : ¬ k = k1 := fun he => h1 he.symm
      rw [hrepl, lookup_cons, if_neg hk1]
      exact ih h2

theorem lookup_dictInsert (d : List (String × String)) (k v q : String) :
    (dictInsert d k v).lookup q = if q = k then some v else d.lookup q := by
  unfold dictInsert
  by_cases hq : q = k
  · subst hq
    by_cases hany : d.any (fun p => p.1 = q) = true
    · rw [if_pos hany, lookup_map_replace_eq d q v hany, if_pos rfl]
    · have hf : d.any (fun p => p.1 = q) = false := by
        cases h : d.any (fun p => p.1 = q)
        · rfl
        · exact absurd h hany
      rw [hf, if_neg (by simp), lookup_append, lookup_eq_none_of_no_key d q hf,
        lookup_cons]
      simp
  · by_cases hany : d.any (fun p => p.1 = k) = true
    · rw [if_pos hany, lookup_map_replace_ne d k v q hq, if_neg hq]
    · have hf : d.any (fun p => p.1 = k) = false := by
        cases h : d.any (fun p => p.1 = k)
        · rfl
        · exact absurd h hany
      rw [hf, if_neg (by simp), lookup_append, if_neg hq, lookup_cons, if_neg hq]
      cases List.lookup q d <;> rfl

theorem lookup_kbStep (acc : List (String × String)) (d : Doc) (q : String) :
    (kbStep acc d).lookup q = match docAnswer d q with
      | some a => some a
      | none => acc.lookup q := by
  cases hq : d.lookup "question" with
  | none => simp [kbStep, docAnswer, hq]
  | some q2 =>
    cases ha : d.lookup "answer" with
    | none => simp [kbStep, docAnswer, hq, ha]
    | some a =>
      simp only [kbStep, docAnswer, hq, ha]
      rw [lookup_dictInsert]
      by_cases h : q = q2
      · subst h
        simp
      · have h2 : ¬ q2 = q := fun he => h he.symm
        simp [h, h2]

theorem lookup_foldl_kbStep (kb : List Doc) (q : String) :
    ∀ acc : List (String × String),
      ((kb.foldl kbStep acc).lookup q) = match lastAnswer kb q with
        | some a => some a
        | none => acc.lookup q := by
  induction kb with
  | nil => intro acc; rfl
  | cons d kb ih =>
    intro acc
    rw [List.foldl_cons, ih (kbStep acc d), lookup_kbStep]
    show _ = (match (match lastAnswer kb q with
      | some a => some a
      | none => docAnswer d q) with
      | some a => some a
      | none => acc.lookup q)
    cases lastAnswer kb q with
    | some a => rfl
    | none => cases docAnswer d q <;> rfl

theorem lookup_kbChoices (kb : List Doc) (q : String) :
    (kbChoices kb).lookup q = lastAnswer kb q := by
  rw [kbChoices, lookup_foldl_kbStep kb q []]
  cases lastAnswer kb q <;> rfl

theorem foldl_best_spec (f : String → Nat) (rest : List String) :
    ∀ init : String × Nat, init.2 = f init.1 →
      (rest.foldl (fun best cand => if f cand > best.2 then (cand, f cand) else best) init = init ∨
        (rest.foldl (fun best cand => if f cand > best.2 then (cand, f cand) else best) init).1 ∈ rest) ∧
      (rest.foldl (fun best cand => if f cand > best.2 then (cand, f cand) else best) init).2 =
        f (rest.foldl (fun best cand => if f cand > best.2 then (cand, f cand) else best) init).1 := by
  induction rest with
  | nil => intro init hinit; exact ⟨Or.inl rfl, hinit⟩
  | cons cand rest ih =>
    intro init hinit
    rw [List.foldl_cons]
    by_cases hc : f cand > init.2
    · rw [if_pos hc]
      rcases ih (cand, f cand) rfl with ⟨hmem, hsc⟩
      refine ⟨?_, hsc⟩
      rcases hmem with he | hm
      · exact Or.inr (by rw [he]; exact List.mem_cons_self _ _)
      · exact Or.inr (List.mem_cons_of_mem _ hm)
    · rw [if_neg hc]
      rcases ih init hinit with ⟨hmem, hsc⟩
      refine ⟨?_, hsc⟩
      rcases hmem with he | hm
      · exact Or.inl he
      · exact Or.inr (List.mem_cons_of_mem _ hm)

theorem extractOne_mem (f : String → Nat) (cs : List String) (c : String) (s : Nat)
    (h : extractOne f cs = some (c, s)) : c ∈ cs ∧ s = f c := by
  cases cs with
  | nil => cases h
  | cons c0 rest =>
    rw [extractOne] at h
    have h2 := Option.some.inj h
    rcases foldl_best_spec f rest (c0, f c0) rfl with ⟨hmem, hsc⟩
    rw [h2] at hmem hsc
    constructor
    · rcases hmem with he | hm
      · have : c = c0 := congrArg Prod.fst he
        rw [this]; exact List.mem_cons_self _ _
      · exact List.mem_cons_of_mem _ hm
    · exact hsc

theorem lookup_isSome_of_mem_keys (l : List (String × String)) (q : String)
    (h : q ∈ l.map Prod.fst) : ∃ a, l.lookup q = some a := by
  induction l with
  | nil => cases h
  | cons p l ih =>
    obtain ⟨k, v⟩ := p
    rw [List.map_cons] at h
    rw [lookup_cons]
    by_cases hq : q = k
    · exact ⟨v, if_pos hq⟩
    · rw [if_neg hq]
      rcases List.mem_cons.mp h with he | hm
      · exact absurd he hq
      · exact ih hm

theorem routerIntentName_ok_obj (req : PyJson) (x : PyJson)
    (h : routerIntentName req = Except.ok x) : ∃ kvs, req = PyJson.obj kvs := by
  cases req
  case obj kvs => exact ⟨kvs, rfl⟩
  all_goals simp [routerIntentName, dictGet, except_bind_error] at h

theorem routeText_route (kvs : List (String × PyJson)) (iname : PyJson)
    (env : Option String) (kb : List Doc) (scorer : Scorer) (logWriteOk : Bool)
    (h : routerIntentName (PyJson.obj kvs) = Except.ok iname) :
    routeText (PyJson.obj kvs) env kb scorer logWriteOk =
      if pyEqStr iname "Lead Capture & Qualification" then
        leadCaptureBranch (PyJson.obj kvs) env
      else if pyEqStr iname "handoff.request" then
        handoffBranch (PyJson.obj kvs) env
      else if pyEqStr iname "Default Welcome Intent" then
        Except.ok "Welcome to Iapetus AI. How can I assist you today?"
      else
        handle_knowledge_fallback ((kvs.lookup "text").getD (PyJson.str "")) kb scorer >>=
          fun answer => Except.ok (answer.getD dontKnowPrompt) := by
  simp only [routeText, h, routerUserQuery_obj, except_bind_ok]

theorem leadCaptureBranch_obj (kvs sis ps : List (String × PyJson)) (env : Option String)
    (hsi : (kvs.lookup "sessionInfo").getD (PyJson.obj []) = PyJson.obj sis)
    (hps : (sis.lookup "parameters").getD (PyJson.obj []) = PyJson.obj ps) :
    leadCaptureBranch (PyJson.obj kvs) env =
      Except.ok ("Thank you, " ++ pyStr ((ps.lookup "full_name").getD (PyJson.str "Valued Prospect")) ++
        ". Your request has been securely logged. A member of our advisory team will be in contact with you shortly.") := by
  simp only [leadCaptureBranch, dictGet_obj, hsi, except_bind_ok, hps]

theorem handoffBranch_obj (kvs sis ps : List (String × PyJson)) (env : Option String)
    (hsi : (kvs.lookup "sessionInfo").getD (PyJson.obj []) = PyJson.obj sis)
    (hps : (sis.lookup "parameters").getD (PyJson.obj []) = PyJson.obj ps) :
    handoffBranch (PyJson.obj kvs) env =
      if send_handoff_notification env
          ((ps.lookup "full_name").getD (PyJson.str "Prospect"))
          ((ps.lookup "email_address").getD (PyJson.str "Not Collected"))
          ((kvs.lookup "text").getD (PyJson.str "User explicitly asked for an agent.")) then
        Except.ok ("Thank you, " ++ pyStr ((ps.lookup "full_name").getD (PyJson.str "Prospect")) ++
          ". I have securely notified our advisory team. They will review your request and reach out to you at " ++
          pyStr ((ps.lookup "email_address").getD (PyJson.str "Not Collected")) ++ " shortly.")
      else
        Except.ok "I'm sorry, I couldn't connect you right now. Please try emailing us directly." := by
  simp only [handoffBranch, dictGet_obj, hsi, except_bind_ok, hps]

theorem hkf_of_extract (uq : String) (kb : List Doc) (scorer : Scorer) (mt : String) (sc : Nat)
    (hx : extractOne (scorer uq) ((kbChoices kb).map Prod.fst) = some (mt, sc)) :
    handle_knowledge_fallback (PyJson.str uq) kb scorer =
      Except.ok (if sc > 85 then (kbChoices kb).lookup mt else none) := by
  have hne : kbChoices kb ≠ [] := by
    intro h0
    rw [h0] at hx
    simp [extractOne] at hx
  obtain ⟨c, cs, hcc⟩ := List.exists_cons_of_ne_nil hne
  rw [hcc] at hx
  simp only [handle_knowledge_fallback, hcc, List.isEmpty_cons, hx]
  by_cases h85 : sc > 85
  · simp [h85]
  · simp [h85]

/-! ### Claim theorems -/

/-- C1: for every inbound request (missing, malformed, or field-lacking body
included) and every environment, store and scorer, `cf_lead_capture_handler`
returns HTTP 200 with the fixed fulfillment envelope (one message, one text
string, playback interruption disabled) and the correct content type; no
exception escapes, and when routing raises, the body carries the one fixed
apology string. -/
theorem handler_always_fixed_envelope (req : PyJson) (env : Option String) (kb : List Doc)
    (scorer : Scorer) (logWriteOk : Bool) :
    (cf_lead_capture_handler req env kb scorer logWriteOk).status = 200 ∧
    (cf_lead_capture_handler req env kb scorer logWriteOk).contentType = "application/json" ∧
    (∃ t, (cf_lead_capture_handler req env kb scorer logWriteOk).body = envelope t) ∧
    (routeText req env kb scorer logWriteOk = Except.error () →
      (cf_lead_capture_handler req env kb scorer logWriteOk).body = envelope
        "I'm sorry, I seem to be having a technical issue. Please try again in a moment.") := by
  refine ⟨rfl, rfl, ⟨_, rfl⟩, fun h => ?_⟩
  simp [cf_lead_capture_handler, h, apologyText]

/-- Witness for C1: on a request with a missing body (`get_json()` returned
`None`), the handler still answers 200 with the enveloped apology. -/
theorem handler_always_fixed_envelope_witness :
    (cf_lead_capture_handler PyJson.null none [] (fun _ _ => 0) true).status = 200 ∧
    (cf_lead_capture_handler PyJson.null none [] (fun _ _ => 0) true).body = envelope
      "I'm sorry, I seem to be having a technical issue. Please try again in a moment." := by
  have h := handler_always_fixed_envelope PyJson.null none [] (fun _ _ => 0) true
  exact ⟨h.1, h.2.2.2 rfl⟩

/-- C2: for every query and non-empty candidate set, the fallback accepts the
best match exactly when its score is strictly greater than 85: above the
threshold it returns the matched entry's answer, at 85 or below it returns
`none` — a normal negative outcome, not an error. -/
theorem fuzzy_threshold_spec (uq : String) (kb : List Doc) (scorer : Scorer) (mt : String) (sc : Nat)
    (hx : extractOne (scorer uq) ((kbChoices kb).map Prod.fst) = some (mt, sc)) :
    (sc > 85 → ∃ a, (kbChoices kb).lookup mt = some a ∧
      handle_knowledge_fallback (PyJson.str uq) kb scorer = Except.ok (some a)) ∧
    (sc ≤ 85 → handle_knowledge_fallback (PyJson.str uq) kb scorer = Except.ok none) := by
  have heval := hkf_of_extract uq kb scorer mt sc hx
  constructor
  · intro h85
    rcases extractOne_mem (scorer uq) _ mt sc hx with ⟨hmem, _⟩
    rcases lookup_isSome_of_mem_keys (kbChoices kb) mt hmem with ⟨a, ha⟩
    refine ⟨a, ha, ?_⟩
    rw [heval, if_pos h85, ha]
  · intro h85
    rw [heval, if_neg (by omega)]

/-- Witness for C2: with top score 86 the single entry's answer is returned;
with top score exactly 85 the same query and store yield no match. -/
theorem fuzzy_threshold_spec_witness :
    handle_knowledge_fallback (PyJson.str "pricing query")
      [[("question", "What is the pricing?"), ("answer", "$99/mo")]] (fun _ _ => 86) =
      Except.ok (some "$99/mo") ∧
    handle_knowledge_fallback (PyJson.str "pricing query")
      [[("question", "What is the pricing?"), ("answer", "$99/mo")]] (fun _ _ => 85) =
      Except.ok none := by
  constructor
  · rcases (fuzzy_threshold_spec "pricing query"
      [[("question", "What is the pricing?"), ("answer", "$99/mo")]] (fun _ _ => 86)
      "What is the pricing?" 86 rfl).1 (by omega) with ⟨a, ha, hres⟩
    have ha2 : a = "$99/mo" := by
      have : some a = some "$99/mo" := by rw [← ha]; rfl
      exact Option.some.inj this
    rw [ha2] at hres
    exact hres
  · exact (fuzzy_threshold_spec "pricing query"
      [[("question", "What is the pricing?"), ("answer", "$99/mo")]] (fun _ _ => 85)
      "What is the pricing?" 85 rfl).2 (by omega)

/-- C3 counterexample: on a request whose `intentInfo` and `text` keys are
absent, the intent name and user text the router computes default to the
empty string, not to the sentinels `"N/A"`/`"UNKNOWN"` the claim names. -/
theorem router_defaults_counterexample :
    routerIntentName (PyJson.obj []) = Except.ok (PyJson.str "") ∧
    ¬ routerIntentName (PyJson.obj []) = Except.ok (PyJson.str "N/A") ∧
    routerUserQuery (PyJson.obj []) = Except.ok (PyJson.str "") ∧
    ¬ routerUserQuery (PyJson.obj []) = Except.ok (PyJson.str "UNKNOWN") := by
  refine ⟨rfl, fun h => ?_, rfl, fun h => ?_⟩
  · have h1 : Except.ok (ε := Unit) (PyJson.str "") = Except.ok (PyJson.str "N/A") := h
    have h2 := PyJson.str.inj (Except.ok.inj h1)
    simp at h2
  · have h1 : Except.ok (ε := Unit) (PyJson.str "") = Except.ok (PyJson.str "UNKNOWN") := h
    have h2 := PyJson.str.inj (Except.ok.inj h1)
    simp at h2

/-- C3 amended: fields absent from the request default without null
propagation and are never fatal, but the sentinel strings `"UNKNOWN"` and
`"N/A"` apply to the audit record built by `log_conversation`, while the
intent name and user text used by the router default to the empty string. -/
theorem sentinel_defaults_amended (kvs : List (String × PyJson))
    (h1 : kvs.lookup "sessionInfo" = none)
    (h2 : kvs.lookup "intentInfo" = none)
    (h3 : kvs.lookup "text" = none) :
    log_conversation (PyJson.obj kvs) true =
      some (AuditRecord.mk (PyJson.str "UNKNOWN") (PyJson.str "N/A") (PyJson.str "N/A")
        (PyJson.obj [])) ∧
    routerIntentName (PyJson.obj kvs) = Except.ok (PyJson.str "") ∧
    routerUserQuery (PyJson.obj kvs) = Except.ok (PyJson.str "") := by
  refine ⟨?_, ?_, ?_⟩
  · simp [log_conversation, dictGet_obj, h1, h2, h3, except_bind_ok]
  · simp [routerIntentName, dictGet_obj, h2, except_bind_ok]
  · simp [routerUserQuery_obj, h3]

/-- Witness for C3 (amended): the empty request body takes exactly these
defaults. -/
theorem sentinel_defaults_amended_witness :
    log_conversation (PyJson.obj []) true =
      some (AuditRecord.mk (PyJson.str "UNKNOWN") (PyJson.str "N/A") (PyJson.str "N/A")
        (PyJson.obj [])) ∧
    routerIntentName (PyJson.obj []) = Except.ok (PyJson.str "") := by
  have h := sentinel_defaults_amended [] rfl rfl rfl
  exact ⟨h.1, h.2.1⟩

/-- C5: a failing audit-log write is swallowed inside `log_conversation`
(modelled total, returning `none` for the failed write) and the handler's
response is identical to the response of a run whose log write succeeded,
for every request, environment, store and scorer. -/
theorem logging_failure_invisible (req : PyJson) (env : Option String) (kb : List Doc)
    (scorer : Scorer) :
    cf_lead_capture_handler req env kb scorer false = cf_lead_capture_handler req env kb scorer true ∧
    log_conversation req false = none := by
  constructor
  · rfl
  · simp only [log_conversation]
    split
    · rfl
    · rfl

/-- C9: the dispatcher's boolean depends only on the `CRM_API_KEY` value:
two calls differing only in name, email and context agree, and the result is
`true` exactly when the key is present and non-empty. -/
theorem dispatcher_key_only (env : Option String) (n1 e1 c1 n2 e2 c2 : PyJson) :
    send_handoff_notification env n1 e1 c1 = send_handoff_notification env n2 e2 c2 ∧
    (send_handoff_notification env n1 e1 c1 = true ↔ ∃ k, env = some k ∧ k ≠ "") := by
  constructor
  · cases env <;> rfl
  · cases env with
    | none => simp [send_handoff_notification]
    | some k =>
      by_cases hk : k = "" <;> simp [send_handoff_notification, hk]

theorem routeText_leadCapture (kvs : List (String × PyJson)) (env : Option String)
    (kb : List Doc) (scorer : Scorer) (logWriteOk : Bool)
    (hintent : routerIntentName (PyJson.obj kvs) =
      Except.ok (PyJson.str "Lead Capture & Qualification")) :
    routeText (PyJson.obj kvs) env kb scorer logWriteOk = leadCaptureBranch (PyJson.obj kvs) env := by
  rw [routeText_route kvs _ env kb scorer logWriteOk hintent]
  rfl

theorem routeText_handoff (kvs : List (String × PyJson)) (env : Option String)
    (kb : List Doc) (scorer : Scorer) (logWriteOk : Bool)
    (hintent : routerIntentName (PyJson.obj kvs) = Except.ok (PyJson.str "handoff.request")) :
    routeText (PyJson.obj kvs) env kb scorer logWriteOk = handoffBranch (PyJson.obj kvs) env := by
  rw [routeText_route kvs _ env kb scorer logWriteOk hintent]
  rfl

theorem routeText_fallbackPath (kvs : List (String × PyJson)) (iname : PyJson)
    (env : Option String) (kb : List Doc) (scorer : Scorer) (logWriteOk : Bool)
    (hintent : routerIntentName (PyJson.obj kvs) = Except.ok iname)
    (h1 : pyEqStr iname "Lead Capture & Qualification" = false)
    (h2 : pyEqStr iname "handoff.request" = false)
    (h3 : pyEqStr iname "Default Welcome Intent" = false) :
    routeText (PyJson.obj kvs) env kb scorer logWriteOk =
      handle_knowledge_fallback ((kvs.lookup "text").getD (PyJson.str "")) kb scorer >>=
        fun answer => Except.ok (answer.getD dontKnowPrompt) := by
  rw [routeText_route kvs iname env kb scorer logWriteOk hintent]
  simp [h1, h2, h3]

/-- C4: on a `handoff.request` intent, an absent `CRM_API_KEY` makes
`send_handoff_notification` return `false` (no exception) and the reply is
the failure-path apology; a present (non-empty) key makes the dispatcher
return `true` and the reply names the provided name (default `"Prospect"`)
and email (default `"Not Collected"`). -/
theorem handoff_request_spec (kvs sis ps : List (String × PyJson)) (kb : List Doc)
    (scorer : Scorer) (logWriteOk : Bool)
    (hintent : routerIntentName (PyJson.obj kvs) = Except.ok (PyJson.str "handoff.request"))
    (hsi : (kvs.lookup "sessionInfo").getD (PyJson.obj []) = PyJson.obj sis)
    (hps : (sis.lookup "parameters").getD (PyJson.obj []) = PyJson.obj ps) :
    ((∀ n e c, send_handoff_notification none n e c = false) ∧
      routeText (PyJson.obj kvs) none kb scorer logWriteOk =
        Except.ok "I'm sorry, I couldn't connect you right now. Please try emailing us directly.") ∧
    ∀ k : String, k ≠ "" →
      (∀ n e c, send_handoff_notification (some k) n e c = true) ∧
      routeText (PyJson.obj kvs) (some k) kb scorer logWriteOk =
        Except.ok ("Thank you, " ++ pyStr ((ps.lookup "full_name").getD (PyJson.str "Prospect")) ++
          ". I have securely notified our advisory team. They will review your request and reach out to you at " ++
          pyStr ((ps.lookup "email_address").getD (PyJson.str "Not Collected")) ++ " shortly.") := by
  constructor
  · refine ⟨fun n e c => rfl, ?_⟩
    rw [routeText_handoff kvs none kb scorer logWriteOk hintent,
      handoffBranch_obj kvs sis ps none hsi hps]
    rfl
  · intro k hk
    have hsend : ∀ n e c, send_handoff_notification (some k) n e c = true := by
      intro n e c
      simp [send_handoff_notification, hk]
    refine ⟨hsend, ?_⟩
    rw [routeText_handoff kvs (some k) kb scorer logWriteOk hintent,
      handoffBranch_obj kvs sis ps (some k) hsi hps, hsend, if_pos rfl]

/-- Witness for C4: a `handoff.request` request with no session parameters
gets the apology when the key is absent, and the confirmation naming the
defaults `"Prospect"` and `"Not Collected"` when the key is present. -/
theorem handoff_request_spec_witness :
    routeText (PyJson.obj [("intentInfo", PyJson.obj [("displayName", PyJson.str "handoff.request")])])
      none [] (fun _ _ => 0) true =
      Except.ok "I'm sorry, I couldn't connect you right now. Please try emailing us directly." ∧
    routeText (PyJson.obj [("intentInfo", PyJson.obj [("displayName", PyJson.str "handoff.request")])])
      (some "sk-test") [] (fun _ _ => 0) true =
      Except.ok "Thank you, Prospect. I have securely notified our advisory team. They will review your request and reach out to you at Not Collected shortly." := by
  have h := handoff_request_spec
    [("intentInfo", PyJson.obj [("displayName", PyJson.str "handoff.request")])] [] []
    [] (fun _ _ => 0) true rfl rfl rfl
  exact ⟨h.1.2, (h.2 "sk-test" (by decide)).2⟩

/-- C6: with an unrecognized (or empty) intent name and a store with zero
valid entries, the fallback returns `none` without consulting the matcher
(the result is the same for every query and scorer), and the handler replies
with exactly the fixed "don't know" prompt — a normal outcome, HTTP 200. -/
theorem empty_store_spec (kvs : List (String × PyJson)) (iname : PyJson) (kb : List Doc)
    (hintent : routerIntentName (PyJson.obj kvs) = Except.ok iname)
    (h1 : pyEqStr iname "Lead Capture & Qualification" = false)
    (h2 : pyEqStr iname "handoff.request" = false)
    (h3 : pyEqStr iname "Default Welcome Intent" = false)
    (hkb : kbChoices kb = []) :
    (∀ q scorer, handle_knowledge_fallback q kb scorer = Except.ok none) ∧
    ∀ env scorer logWriteOk,
      cf_lead_capture_handler (PyJson.obj kvs) env kb scorer logWriteOk =
        Response.mk (envelope dontKnowPrompt) 200 "application/json" := by
  have hhkf : ∀ q scorer, handle_knowledge_fallback q kb scorer = Except.ok none := by
    intro q scorer
    simp [handle_knowledge_fallback, hkb]
  refine ⟨hhkf, fun env scorer logWriteOk => ?_⟩
  have hr : routeText (PyJson.obj kvs) env kb scorer logWriteOk = Except.ok dontKnowPrompt := by
    rw [routeText_fallbackPath kvs iname env kb scorer logWriteOk hintent h1 h2 h3, hhkf,
      except_bind_ok]
    rfl
  simp [cf_lead_capture_handler, hr]

/-- Witness for C6: the empty intent name and a store whose only document
lacks a `question` field produce the fixed prompt. -/
theorem empty_store_spec_witness :
    handle_knowledge_fallback (PyJson.str "any question") [[("answer", "orphan")]]
      (fun _ _ => 100) = Except.ok none ∧
    cf_lead_capture_handler (PyJson.obj []) none [[("answer", "orphan")]] (fun _ _ => 100) true =
      Response.mk (envelope dontKnowPrompt) 200 "application/json" := by
  have h := empty_store_spec [] (PyJson.str "") [[("answer", "orphan")]] rfl (by decide)
    (by decide) (by decide) rfl
  exact ⟨h.1 (PyJson.str "any question") (fun _ _ => 100), h.2 none (fun _ _ => 100) true⟩

/-- C7: a document missing its `question` or its `answer` field is silently
excluded from the candidate dict, wherever it occurs in the stream. -/
theorem invalid_docs_excluded (pre post : List Doc) (d : Doc)
    (hd : d.lookup "question" = none ∨ d.lookup "answer" = none) :
    kbChoices (pre ++ d :: post) = kbChoices (pre ++ post) := by
  have hstep : ∀ acc : List (String × String), kbStep acc d = acc := by
    intro acc
    rcases hd with h | h
    · simp [kbStep, h]
    · cases hq : d.lookup "question" with
      | none => simp [kbStep, hq]
      | some q2 => simp [kbStep, hq, h]
  show (pre ++ d :: post).foldl kbStep [] = (pre ++ post).foldl kbStep []
  rw [List.foldl_append, List.foldl_append, List.foldl_cons, hstep]

/-- Witness for C7: a store with one valid and one invalid entry yields a
candidate set holding only the valid entry's question. -/
theorem invalid_docs_excluded_witness :
    kbChoices [[("question", "What is the pricing?"), ("answer", "$99/mo")],
      [("question", "incomplete")]] = [("What is the pricing?", "$99/mo")] := by
  have h := invalid_docs_excluded [[("question", "What is the pricing?"), ("answer", "$99/mo")]]
    [] [("question", "incomplete")] (Or.inr rfl)
  exact h.trans rfl

/-- C8: on a `Lead Capture & Qualification` intent the reply thanks the
session's `full_name` (default `"Valued Prospect"`), and it is the same
string whatever `send_handoff_notification` returned (any environment). -/
theorem lead_capture_spec (kvs sis ps : List (String × PyJson)) (kb : List Doc)
    (scorer : Scorer) (logWriteOk : Bool)
    (hintent : routerIntentName (PyJson.obj kvs) =
      Except.ok (PyJson.str "Lead Capture & Qualification"))
    (hsi : (kvs.lookup "sessionInfo").getD (PyJson.obj []) = PyJson.obj sis)
    (hps : (sis.lookup "parameters").getD (PyJson.obj []) = PyJson.obj ps) :
    (∀ env, routeText (PyJson.obj kvs) env kb scorer logWriteOk =
      Except.ok ("Thank you, " ++ pyStr ((ps.lookup "full_name").getD (PyJson.str "Valued Prospect")) ++
        ". Your request has been securely logged. A member of our advisory team will be in contact with you shortly.")) ∧
    ∀ env1 env2, routeText (PyJson.obj kvs) env1 kb scorer logWriteOk =
      routeText (PyJson.obj kvs) env2 kb scorer logWriteOk := by
  have hall : ∀ env, routeText (PyJson.obj kvs) env kb scorer logWriteOk =
      Except.ok ("Thank you, " ++ pyStr ((ps.lookup "full_name").getD (PyJson.str "Valued Prospect")) ++
        ". Your request has been securely logged. A member of our advisory team will be in contact with you shortly.") := by
    intro env
    rw [routeText_leadCapture kvs env kb scorer logWriteOk hintent,
      leadCaptureBranch_obj kvs sis ps env hsi hps]
  exact ⟨hall, fun env1 env2 => (hall env1).trans (hall env2).symm⟩

/-- Witness for C8: with `full_name` absent the acknowledgement names
"Valued Prospect" and is identical with and without the credential. -/
theorem lead_capture_spec_witness :
    routeText (PyJson.obj [("intentInfo", PyJson.obj
        [("displayName", PyJson.str "Lead Capture & Qualification")])])
      none [] (fun _ _ => 0) true =
      Except.ok "Thank you, Valued Prospect. Your request has been securely logged. A member of our advisory team will be in contact with you shortly." ∧
    routeText (PyJson.obj [("intentInfo", PyJson.obj
        [("displayName", PyJson.str "Lead Capture & Qualification")])])
      none [] (fun _ _ => 0) true =
      routeText (PyJson.obj [("intentInfo", PyJson.obj
        [("displayName", PyJson.str "Lead Capture & Qualification")])])
      (some "sk-test") [] (fun _ _ => 0) true := by
  have h := lead_capture_spec
    [("intentInfo", PyJson.obj [("displayName", PyJson.str "Lead Capture & Qualification")])]
    [] [] [] (fun _ _ => 0) true rfl rfl rfl
  exact ⟨h.1 none, h.2 none (some "sk-test")⟩

/-- C10: the candidate dict keeps, for each question text, the answer of the
document read last in the stream (`lastAnswer`), so a confident match on a
duplicated question returns the last-read document's answer; earlier
duplicates are shadowed. -/
theorem duplicate_questions_last_wins (kb : List Doc) (uq mt : String) (sc : Nat) (scorer : Scorer)
    (hx : extractOne (scorer uq) ((kbChoices kb).map Prod.fst) = some (mt, sc))
    (hsc : sc > 85) :
    (kbChoices kb).lookup mt = lastAnswer kb mt ∧
    handle_knowledge_fallback (PyJson.str uq) kb scorer = Except.ok (lastAnswer kb mt) := by
  refine ⟨lookup_kbChoices kb mt, ?_⟩
  rw [hkf_of_extract uq kb scorer mt sc hx, if_pos hsc, lookup_kbChoices]

/-- Witness for C10: two documents with the same question and different
answers; the confident match returns the second (last-read) answer. -/
theorem duplicate_questions_last_wins_witness :
    handle_knowledge_fallback (PyJson.str "dup question")
      [[("question", "dup question"), ("answer", "first answer")],
       [("question", "dup question"), ("answer", "second answer")]] (fun _ _ => 100) =
      Except.ok (some "second answer") := by
  have h := duplicate_questions_last_wins
    [[("question", "dup question"), ("answer", "first answer")],
     [("question", "dup question"), ("answer", "second answer")]]
    "dup question" "dup question" 100 (fun _ _ => 100) rfl (by omega)
  exact h.2
